import Mathlib

/-!
Verification of the chat-booking-infrastructure repository.

This file gives a shallow embedding of the repository's declarative
infrastructure code and proves properties about it:

* `src/cdk/lib/database-stack.ts` - the `DatabaseStack` DynamoDB table
  declarations (table names, key schemas, global secondary indexes, and
  operational settings) and the `AssetsStack` bucket/distribution.
* `src/cdk/lib/appsync-api-stack.ts` - the GraphQL schema field lists of
  `buildSchema`, the resolver declarations of `createResolvers`, the
  `createSchemaFile` filesystem write, and the two `EmbeddedWidgetStack`
  variants.
* `src/cdk/bin/app.ts` - the stack instantiation and dependency wiring of
  the CDK app entry point, including the cross-stack references made by
  the `DeploymentSummary` output.
* `src/cloudformation/teardown.sh` and `src/cloudformation/validate.sh` -
  the control flow of the two shell scripts under `set -e` semantics.
* the CloudFormation nested-stack expression, partly modelled from the
  spec because the YAML templates themselves are not in the source tree.

Each stack class is embedded as explicit data (records and lists) copied
from the corresponding declarations, and every theorem is decidable over
that concrete data.
-/

/- ====================================================================
   DynamoDB table declarations (src/cdk/lib/database-stack.ts)
   ==================================================================== -/

/-- Values of `dynamodb.AttributeType` used by the repository. -/
inductive AttributeType
  | STRING
  | NUMBER
deriving DecidableEq

/-- A key attribute as passed to `partitionKey:`/`sortKey:` fields:
a `name` and an `AttributeType`. -/
structure KeyAttribute where
  name : String
  attrType : AttributeType
deriving DecidableEq

/-- Values of `dynamodb.ProjectionType` used by the repository. -/
inductive ProjectionKind
  | ALL
  | KEYS_ONLY
deriving DecidableEq

/-- One `addGlobalSecondaryIndex` call: fields are `indexName`,
`partitionKey`, optional `sortKey`, `projectionType`. -/
structure GlobalSecondaryIndex where
  indexName : String
  partitionKey : KeyAttribute
  sortKey : Option KeyAttribute
  projection : ProjectionKind
deriving DecidableEq

/-- Values of `dynamodb.BillingMode`. -/
inductive BillingMode
  | PAY_PER_REQUEST
  | PROVISIONED
deriving DecidableEq

/-- Values of `cdk.RemovalPolicy`. -/
inductive RemovalPolicy
  | RETAIN
  | DESTROY
deriving DecidableEq

/-- Values of `dynamodb.TableEncryption`. -/
inductive TableEncryption
  | AWS_MANAGED
  | CUSTOMER_MANAGED
  | DEFAULT
deriving DecidableEq

/-- One `new dynamodb.Table(this, constructId, props)` declaration together
with the `addGlobalSecondaryIndex` calls applied to it.  Field order:
constructId, tableName, partitionKey, sortKey, billingMode,
pointInTimeRecovery, removalPolicy, encryption, globalSecondaryIndexes. -/
structure TableDecl where
  constructId : String
  tableName : String
  partitionKey : KeyAttribute
  sortKey : Option KeyAttribute
  billingMode : BillingMode
  pointInTimeRecovery : Bool
  removalPolicy : RemovalPolicy
  encryption : TableEncryption
  globalSecondaryIndexes : List GlobalSecondaryIndex
deriving DecidableEq

namespace DatabaseStack

/-- database-stack.ts lines 32-52: `this.tenantsTable`, table
`ChatBooking-Tenants`, pk `tenantId`, GSI `slug-index` (pk `slug`). -/
def tenantsTable : TableDecl :=
  ⟨"TenantsTable", "ChatBooking-Tenants",
   ⟨"tenantId", .STRING⟩, none,
   .PAY_PER_REQUEST, true, .RETAIN, .AWS_MANAGED,
   [⟨"slug-index", ⟨"slug", .STRING⟩, none, .ALL⟩]⟩

/-- database-stack.ts lines 55-75: `this.apiKeysTable`, table
`ChatBooking-ApiKeys`, pk `apiKeyHash`, GSI `tenantId-index` (pk
`tenantId`). -/
def apiKeysTable : TableDecl :=
  ⟨"ApiKeysTable", "ChatBooking-ApiKeys",
   ⟨"apiKeyHash", .STRING⟩, none,
   .PAY_PER_REQUEST, true, .RETAIN, .AWS_MANAGED,
   [⟨"tenantId-index", ⟨"tenantId", .STRING⟩, none, .ALL⟩]⟩

/-- database-stack.ts lines 78-106: `this.servicesTable`, table
`ChatBooking-Services`, pk `tenantId`, sk `serviceId`, GSI
`category-index` (pk `tenantId`, sk `category`). -/
def servicesTable : TableDecl :=
  ⟨"ServicesTable", "ChatBooking-Services",
   ⟨"tenantId", .STRING⟩, some ⟨"serviceId", .STRING⟩,
   .PAY_PER_REQUEST, true, .RETAIN, .AWS_MANAGED,
   [⟨"category-index", ⟨"tenantId", .STRING⟩, some ⟨"category", .STRING⟩, .ALL⟩]⟩

/-- database-stack.ts lines 109-137: `this.providersTable`, table
`ChatBooking-Providers`, pk `tenantId`, sk `providerId`, GSI
`serviceId-index` (pk `tenantId`, sk `serviceIds`). -/
def providersTable : TableDecl :=
  ⟨"ProvidersTable", "ChatBooking-Providers",
   ⟨"tenantId", .STRING⟩, some ⟨"providerId", .STRING⟩,
   .PAY_PER_REQUEST, true, .RETAIN, .AWS_MANAGED,
   [⟨"serviceId-index", ⟨"tenantId", .STRING⟩, some ⟨"serviceIds", .STRING⟩, .ALL⟩]⟩

/-- database-stack.ts lines 140-154: `this.availabilityTable`, table
`ChatBooking-ProviderAvailability`, pk `tenantId_providerId`, sk
`dayOfWeek`, no GSI. -/
def availabilityTable : TableDecl :=
  ⟨"AvailabilityTable", "ChatBooking-ProviderAvailability",
   ⟨"tenantId_providerId", .STRING⟩, some ⟨"dayOfWeek", .STRING⟩,
   .PAY_PER_REQUEST, true, .RETAIN, .AWS_MANAGED,
   []⟩

/-- database-stack.ts lines 157-213: `this.bookingsTable`, table
`ChatBooking-Bookings`, pk `tenantId`, sk `bookingId`, GSIs
`providerId-start-index` (pk `tenantId_providerId`, sk `start`),
`clientEmail-index` (pk `tenantId`, sk `clientEmail`),
`conversationId-index` (pk `tenantId`, sk `conversationId`). -/
def bookingsTable : TableDecl :=
  ⟨"BookingsTable", "ChatBooking-Bookings",
   ⟨"tenantId", .STRING⟩, some ⟨"bookingId", .STRING⟩,
   .PAY_PER_REQUEST, true, .RETAIN, .AWS_MANAGED,
   [⟨"providerId-start-index", ⟨"tenantId_providerId", .STRING⟩, some ⟨"start", .STRING⟩, .ALL⟩,
    ⟨"clientEmail-index", ⟨"tenantId", .STRING⟩, some ⟨"clientEmail", .STRING⟩, .ALL⟩,
    ⟨"conversationId-index", ⟨"tenantId", .STRING⟩, some ⟨"conversationId", .STRING⟩, .ALL⟩]⟩

/-- database-stack.ts lines 216-244: `this.conversationsTable`, table
`ChatBooking-Conversations`, pk `tenantId`, sk `conversationId`, GSI
`state-index` (pk `tenantId`, sk `state`). -/
def conversationsTable : TableDecl :=
  ⟨"ConversationsTable", "ChatBooking-Conversations",
   ⟨"tenantId", .STRING⟩, some ⟨"conversationId", .STRING⟩,
   .PAY_PER_REQUEST, true, .RETAIN, .AWS_MANAGED,
   [⟨"state-index", ⟨"tenantId", .STRING⟩, some ⟨"state", .STRING⟩, .ALL⟩]⟩

/-- All tables declared by the `DatabaseStack` constructor, in source
order. -/
def tables : List TableDecl :=
  [tenantsTable, apiKeysTable, servicesTable, providersTable,
   availabilityTable, bookingsTable, conversationsTable]

end DatabaseStack

/-- The full key/index shape of one table declaration: table name,
partition key name, sort key name, and for each GSI its name, partition
key name and sort key name. -/
def tableShape (t : TableDecl) :
    String × String × Option String × List (String × String × Option String) :=
  (t.tableName, t.partitionKey.name, t.sortKey.map KeyAttribute.name,
   t.globalSecondaryIndexes.map
     (fun g => (g.indexName, g.partitionKey.name, g.sortKey.map KeyAttribute.name)))

/-- Claim C1: the DatabaseStack declares exactly 7 DynamoDB tables
(Tenants, ApiKeys, Services, Providers, ProviderAvailability, Bookings,
Conversations), each with the partition key, sort key and global
secondary indexes stated in the declarations: Tenants keyed on tenantId
with a slug-index GSI; ApiKeys keyed on apiKeyHash with a tenantId-index
GSI; Services keyed on (tenantId, serviceId) with a category-index GSI;
Providers keyed on (tenantId, providerId) with a serviceId-index GSI;
ProviderAvailability keyed on (tenantId_providerId, dayOfWeek) with no
GSI; Bookings keyed on (tenantId, bookingId) with three GSIs; and
Conversations keyed on (tenantId, conversationId) with a state-index
GSI. -/
theorem C1_database_tables :
    DatabaseStack.tables.length = 7 ∧
    DatabaseStack.tables.map tableShape =
      [("ChatBooking-Tenants", "tenantId", none,
          [("slug-index", "slug", none)]),
       ("ChatBooking-ApiKeys", "apiKeyHash", none,
          [("tenantId-index", "tenantId", none)]),
       ("ChatBooking-Services", "tenantId", some "serviceId",
          [("category-index", "tenantId", some "category")]),
       ("ChatBooking-Providers", "tenantId", some "providerId",
          [("serviceId-index", "tenantId", some "serviceIds")]),
       ("ChatBooking-ProviderAvailability", "tenantId_providerId", some "dayOfWeek",
          []),
       ("ChatBooking-Bookings", "tenantId", some "bookingId",
          [("providerId-start-index", "tenantId_providerId", some "start"),
           ("clientEmail-index", "tenantId", some "clientEmail"),
           ("conversationId-index", "tenantId", some "conversationId")]),
       ("ChatBooking-Conversations", "tenantId", some "conversationId",
          [("state-index", "tenantId", some "state")])] :=
  ⟨rfl, rfl⟩

/-- Claim C8: every one of the 7 DynamoDB tables declared by
DatabaseStack has PAY_PER_REQUEST billing, point-in-time recovery
enabled, RemovalPolicy RETAIN, and AWS-managed encryption. -/
theorem C8_uniform_table_config :
    ∀ t ∈ DatabaseStack.tables,
      t.billingMode = BillingMode.PAY_PER_REQUEST ∧
      t.pointInTimeRecovery = true ∧
      t.removalPolicy = RemovalPolicy.RETAIN ∧
      t.encryption = TableEncryption.AWS_MANAGED := by
  decide

/-- Witness for C8 at the Bookings table. -/
theorem C8_uniform_table_config_witness :
    DatabaseStack.bookingsTable ∈ DatabaseStack.tables ∧
    (DatabaseStack.bookingsTable.billingMode = BillingMode.PAY_PER_REQUEST ∧
     DatabaseStack.bookingsTable.pointInTimeRecovery = true ∧
     DatabaseStack.bookingsTable.removalPolicy = RemovalPolicy.RETAIN ∧
     DatabaseStack.bookingsTable.encryption = TableEncryption.AWS_MANAGED) :=
  ⟨by decide, C8_uniform_table_config DatabaseStack.bookingsTable (by decide)⟩

/-- The names of the tables that hold per-tenant data, as listed by the
claim: Services, Providers, ProviderAvailability, Bookings,
Conversations. -/
def tenantScopedTableNames : List String :=
  ["ChatBooking-Services", "ChatBooking-Providers",
   "ChatBooking-ProviderAvailability", "ChatBooking-Bookings",
   "ChatBooking-Conversations"]

/-- Claim C9: every table declared for per-tenant data uses tenantId or
the composite tenantId_providerId as its partition key, and every GSI on
those tables also uses tenantId or tenantId_providerId as its partition
key, so every key-based access path to tenant data is scoped to a single
tenant. -/
theorem C9_tenant_scoped_keys :
    ∀ t ∈ DatabaseStack.tables, t.tableName ∈ tenantScopedTableNames →
      (t.partitionKey.name = "tenantId" ∨ t.partitionKey.name = "tenantId_providerId") ∧
      ∀ g ∈ t.globalSecondaryIndexes,
        g.partitionKey.name = "tenantId" ∨ g.partitionKey.name = "tenantId_providerId" := by
  decide

/-- Witness for C9 at the Bookings table and its providerId-start-index
GSI. -/
theorem C9_tenant_scoped_keys_witness :
    DatabaseStack.bookingsTable ∈ DatabaseStack.tables ∧
    DatabaseStack.bookingsTable.tableName ∈ tenantScopedTableNames ∧
    (DatabaseStack.bookingsTable.partitionKey.name = "tenantId" ∨
     DatabaseStack.bookingsTable.partitionKey.name = "tenantId_providerId") :=
  ⟨by decide, by decide,
    (C9_tenant_scoped_keys DatabaseStack.bookingsTable (by decide) (by decide)).1⟩

/- ====================================================================
   AppSync GraphQL API (src/cdk/lib/appsync-api-stack.ts)
   ==================================================================== -/

namespace AppSyncApiStack

/-- Field names of the GraphQL `type Query` block in the schema string
returned by `buildSchema` (appsync-api-stack.ts lines 346-364), in
source order. -/
def schemaQueryFields : List String :=
  ["searchServices", "getService", "listProviders", "listProvidersByService",
   "getAvailableSlots",
   "getBooking", "listBookingsByProvider", "listBookingsByClient",
   "getBookingByConversation",
   "getConversation"]

/-- Field names of the GraphQL `type Mutation` block in the schema string
returned by `buildSchema` (appsync-api-stack.ts lines 367-389), in
source order. -/
def schemaMutationFields : List String :=
  ["createService", "updateService", "deleteService",
   "createProvider", "updateProvider", "deleteProvider",
   "setProviderAvailability",
   "createBooking", "confirmBooking", "cancelBooking",
   "startConversation", "sendMessage", "confirmBookingFromConversation"]

/-- The four Lambda data sources added in the constructor
(appsync-api-stack.ts lines 66-84), each wrapping the props function of
the same name. -/
inductive DataSourceKind
  | catalog
  | availability
  | booking
  | chatAgent
deriving DecidableEq

/-- GraphQL operation type named by a resolver's `typeName`. -/
inductive GraphQLOpType
  | Query
  | Mutation
deriving DecidableEq

/-- One `dataSource.createResolver(resolverId, { typeName, fieldName, ... })`
call.  Field order: resolverId, typeName, fieldName, dataSource. -/
structure ResolverDecl where
  resolverId : String
  typeName : GraphQLOpType
  fieldName : String
  dataSource : DataSourceKind
deriving DecidableEq

/-- All resolver declarations made by `createResolvers`
(appsync-api-stack.ts lines 404-574), in source order. -/
def resolvers : List ResolverDecl :=
  [⟨"SearchServicesResolver", .Query, "searchServices", .catalog⟩,
   ⟨"GetServiceResolver", .Query, "getService", .catalog⟩,
   ⟨"ListProvidersResolver", .Query, "listProviders", .catalog⟩,
   ⟨"ListProvidersByServiceResolver", .Query, "listProvidersByService", .catalog⟩,
   ⟨"CreateServiceResolver", .Mutation, "createService", .catalog⟩,
   ⟨"UpdateServiceResolver", .Mutation, "updateService", .catalog⟩,
   ⟨"DeleteServiceResolver", .Mutation, "deleteService", .catalog⟩,
   ⟨"CreateProviderResolver", .Mutation, "createProvider", .catalog⟩,
   ⟨"UpdateProviderResolver", .Mutation, "updateProvider", .catalog⟩,
   ⟨"DeleteProviderResolver", .Mutation, "deleteProvider", .catalog⟩,
   ⟨"GetAvailableSlotsResolver", .Query, "getAvailableSlots", .availability⟩,
   ⟨"SetProviderAvailabilityResolver", .Mutation, "setProviderAvailability", .availability⟩,
   ⟨"GetBookingResolver", .Query, "getBooking", .booking⟩,
   ⟨"ListBookingsByProviderResolver", .Query, "listBookingsByProvider", .booking⟩,
   ⟨"ListBookingsByClientResolver", .Query, "listBookingsByClient", .booking⟩,
   ⟨"GetBookingByConversationResolver", .Query, "getBookingByConversation", .booking⟩,
   ⟨"CreateBookingResolver", .Mutation, "createBooking", .booking⟩,
   ⟨"ConfirmBookingResolver", .Mutation, "confirmBooking", .booking⟩,
   ⟨"CancelBookingResolver", .Mutation, "cancelBooking", .booking⟩,
   ⟨"StartConversationResolver", .Mutation, "startConversation", .chatAgent⟩,
   ⟨"SendMessageResolver", .Mutation, "sendMessage", .chatAgent⟩,
   ⟨"ConfirmBookingFromConversationResolver", .Mutation, "confirmBookingFromConversation", .chatAgent⟩,
   ⟨"GetConversationResolver", .Query, "getConversation", .chatAgent⟩]

/-- Number of resolvers declared for a given (typeName, fieldName)
pair. -/
def resolverCount (ty : GraphQLOpType) (f : String) : Nat :=
  (resolvers.filter (fun r => r.typeName == ty && r.fieldName == f)).length

end AppSyncApiStack

/-- The catalog-domain fields, as grouped by the claim. -/
def catalogFieldNames : List String :=
  ["searchServices", "getService", "listProviders", "listProvidersByService",
   "createService", "updateService", "deleteService",
   "createProvider", "updateProvider", "deleteProvider"]

/-- The availability-domain fields, as grouped by the claim. -/
def availabilityFieldNames : List String :=
  ["getAvailableSlots", "setProviderAvailability"]

/-- The booking-domain fields, as grouped by the claim. -/
def bookingFieldNames : List String :=
  ["getBooking", "listBookingsByProvider", "listBookingsByClient",
   "getBookingByConversation", "createBooking", "confirmBooking",
   "cancelBooking"]

/-- The chat-domain fields, as grouped by the claim. -/
def chatFieldNames : List String :=
  ["getConversation", "startConversation", "sendMessage",
   "confirmBookingFromConversation"]

/-- Claim C3: the schema has 10 Query fields and 13 Mutation fields; for
every schema field exactly one resolver is created; each resolver
targets the Lambda data source of the field's domain (catalog,
availability, booking, chat); no schema field is left without a
resolver and no resolver is created for a field absent from the
schema. -/
theorem C3_resolver_wiring :
    AppSyncApiStack.schemaQueryFields.length = 10 ∧
    AppSyncApiStack.schemaMutationFields.length = 13 ∧
    (∀ f ∈ AppSyncApiStack.schemaQueryFields,
       AppSyncApiStack.resolverCount .Query f = 1) ∧
    (∀ f ∈ AppSyncApiStack.schemaMutationFields,
       AppSyncApiStack.resolverCount .Mutation f = 1) ∧
    (∀ r ∈ AppSyncApiStack.resolvers,
       (r.typeName = .Query → r.fieldName ∈ AppSyncApiStack.schemaQueryFields) ∧
       (r.typeName = .Mutation → r.fieldName ∈ AppSyncApiStack.schemaMutationFields) ∧
       (r.fieldName ∈ catalogFieldNames → r.dataSource = .catalog) ∧
       (r.fieldName ∈ availabilityFieldNames → r.dataSource = .availability) ∧
       (r.fieldName ∈ bookingFieldNames → r.dataSource = .booking) ∧
       (r.fieldName ∈ chatFieldNames → r.dataSource = .chatAgent)) := by
  decide

/-- Witness for C3 at the searchServices query field. -/
theorem C3_resolver_wiring_witness :
    "searchServices" ∈ AppSyncApiStack.schemaQueryFields ∧
    AppSyncApiStack.resolverCount .Query "searchServices" = 1 :=
  ⟨by decide, C3_resolver_wiring.2.2.1 "searchServices" (by decide)⟩

/- ====================================================================
   CDK app entry point (src/cdk/bin/app.ts)
   ==================================================================== -/

/-- The six stacks instantiated by the CDK app entry point
(app.ts lines 42-106). -/
inductive StackId
  | Database
  | Lambda
  | AppSyncApi
  | Auth
  | Frontend
  | EmbeddedWidget
deriving DecidableEq

/-- The explicit `addDependency` calls in app.ts (lines 61 and 74), as
(dependent stack, depended-on stack) pairs. -/
def explicitDependencies : List (StackId × StackId) :=
  [(.Lambda, .Database), (.AppSyncApi, .Lambda)]

/-- One cross-stack member reference made by a declaration in app.ts.
In CDK such a reference makes the consuming stack depend on the
producing stack.  Field order: consumer, producer, member. -/
structure CrossStackRef where
  consumer : StackId
  producer : StackId
  member : String
deriving DecidableEq

/-- All cross-stack member references in app.ts: the seven Database
tables passed into the LambdaStack props (lines 53-59), the five Lambda
functions passed into the AppSyncApiStack props (lines 68-72), and the
three references made by the `DeploymentSummary` CfnOutput that is
placed on the AppSyncApi stack (lines 109-119). -/
def crossStackRefs : List CrossStackRef :=
  [⟨.Lambda, .Database, "tenantsTable"⟩,
   ⟨.Lambda, .Database, "apiKeysTable"⟩,
   ⟨.Lambda, .Database, "servicesTable"⟩,
   ⟨.Lambda, .Database, "providersTable"⟩,
   ⟨.Lambda, .Database, "availabilityTable"⟩,
   ⟨.Lambda, .Database, "bookingsTable"⟩,
   ⟨.Lambda, .Database, "conversationsTable"⟩,
   ⟨.AppSyncApi, .Lambda, "authResolverFunction"⟩,
   ⟨.AppSyncApi, .Lambda, "catalogFunction"⟩,
   ⟨.AppSyncApi, .Lambda, "availabilityFunction"⟩,
   ⟨.AppSyncApi, .Lambda, "bookingFunction"⟩,
   ⟨.AppSyncApi, .Lambda, "chatAgentFunction"⟩,
   ⟨.AppSyncApi, .Auth, "userPool.userPoolId"⟩,
   ⟨.AppSyncApi, .Frontend, "distribution.distributionDomainName"⟩,
   ⟨.AppSyncApi, .EmbeddedWidget, "distribution.distributionDomainName"⟩]

/-- Stack `a` depends on stack `b` when app.ts declares it so, either by
an explicit `addDependency` call or by a cross-stack member
reference. -/
def dependsOn (a b : StackId) : Bool :=
  explicitDependencies.contains (a, b) ||
    crossStackRefs.any (fun r => r.consumer == a && r.producer == b)

/-- All six stacks, for finite quantification. -/
def allStacks : List StackId :=
  [.Database, .Lambda, .AppSyncApi, .Auth, .Frontend, .EmbeddedWidget]

/-- Counterexample to claim C2 as stated: the claim says the only
dependency edges are Lambda on Database and AppSyncApi on Lambda, with
the Auth, Frontend and EmbeddedWidget stacks neither depending on nor
depended on by any stack.  But the DeploymentSummary output declared on
the AppSyncApi stack references authStack.userPool.userPoolId,
frontendStack.distribution.distributionDomainName, and
widgetStack.distribution.distributionDomainName, so the AppSyncApi
stack depends on all three. -/
theorem C2_counterexample :
    dependsOn .AppSyncApi .Auth = true ∧
    ¬ (∀ a ∈ allStacks, ∀ b ∈ allStacks,
         dependsOn a b = true ↔ (a, b) ∈ explicitDependencies) := by
  decide

/-- Rank function exhibiting the dependency graph as acyclic: every edge
goes from a higher-rank stack to a strictly lower-rank one. -/
def stackRank : StackId → Nat
  | .Database => 0
  | .Auth => 0
  | .Frontend => 0
  | .EmbeddedWidget => 0
  | .Lambda => 1
  | .AppSyncApi => 2

/-- Claim C2 (amended): the stack declaration graph built by the CDK app
entry point is a DAG whose dependency edges are exactly Lambda on
Database, AppSyncApi on Lambda, and - through the cross-stack
references of the DeploymentSummary output - AppSyncApi on each of
Auth, Frontend and EmbeddedWidget; the Auth, Frontend and
EmbeddedWidget stacks themselves depend on no stack. -/
theorem C2_stack_graph_amended :
    (∀ a ∈ allStacks, ∀ b ∈ allStacks,
       (dependsOn a b = true ↔
         (a, b) ∈ ([(.Lambda, .Database), (.AppSyncApi, .Lambda),
                    (.AppSyncApi, .Auth), (.AppSyncApi, .Frontend),
                    (.AppSyncApi, .EmbeddedWidget)] : List (StackId × StackId)))) ∧
    (∀ a ∈ allStacks, ∀ b ∈ allStacks,
       dependsOn a b = true → stackRank b < stackRank a) ∧
    (∀ b ∈ allStacks,
       dependsOn .Auth b = false ∧ dependsOn .Frontend b = false ∧
       dependsOn .EmbeddedWidget b = false) := by
  decide

/-- Witness for the amended C2 at the edge from AppSyncApi to Auth. -/
theorem C2_stack_graph_amended_witness :
    stackRank .Auth < stackRank .AppSyncApi :=
  C2_stack_graph_amended.2.1 .AppSyncApi (by decide) .Auth (by decide) (by decide)

/- ====================================================================
   teardown.sh (src/cloudformation/teardown.sh)
   ==================================================================== -/

/-- Outcome of one run of a shell script: its exit status and the AWS
CLI commands it executed, in order. -/
structure ScriptRun where
  exitCode : Nat
  awsCommands : List String
deriving DecidableEq

/-- The delete command issued at teardown.sh lines 47-49. -/
def deleteStackCmd : String := "aws cloudformation delete-stack"

/-- The wait command issued at teardown.sh lines 52-54. -/
def waitDeleteCmd : String := "aws cloudformation wait stack-delete-complete"

/-- teardown.sh lines 35-67.  `confirmation` is the value `read` assigns
to the shell variable at line 35.  Before the prompt the script only
echoes text; line 37 tests the variable against the literal DELETE and
on mismatch prints Aborted and exits 0 (lines 38-39) without running
any AWS command.  Otherwise it runs delete-stack, then waits;
`deleteOk` and `waitOk` model the two AWS commands' exit statuses, and
`set -e` (line 2) aborts the script with a nonzero status on the first
failing command. -/
def teardownRun (confirmation : String) (deleteOk waitOk : Bool) : ScriptRun :=
  if confirmation = "DELETE" then
    if deleteOk then
      if waitOk then ⟨0, [deleteStackCmd, waitDeleteCmd]⟩
      else ⟨1, [deleteStackCmd, waitDeleteCmd]⟩
    else ⟨1, [deleteStackCmd]⟩
  else ⟨0, []⟩

/-- Claim C4: teardown.sh issues the CloudFormation delete-stack command
if and only if the confirmation response is exactly the string DELETE;
for every other response the script exits with status 0 without having
executed any AWS command. -/
theorem C4_teardown_gate (confirmation : String) (deleteOk waitOk : Bool) :
    (deleteStackCmd ∈ (teardownRun confirmation deleteOk waitOk).awsCommands ↔
       confirmation = "DELETE") ∧
    (confirmation ≠ "DELETE" →
       teardownRun confirmation deleteOk waitOk = ⟨0, []⟩) := by
  by_cases h : confirmation = "DELETE"
  · subst h
    refine ⟨⟨fun _ => rfl, fun _ => ?_⟩, fun hne => absurd rfl hne⟩
    cases deleteOk <;> cases waitOk <;> simp [teardownRun]
  · constructor
    · constructor
      · intro hmem
        simp [teardownRun, h] at hmem
      · intro he
        exact absurd he h
    · intro _
      simp [teardownRun, h]

/-- Witness for C4 at the response yes (not DELETE). -/
theorem C4_teardown_gate_witness :
    ("yes" ≠ "DELETE") ∧
    (deleteStackCmd ∈ (teardownRun "yes" true true).awsCommands ↔ "yes" = "DELETE") ∧
    teardownRun "yes" true true = ⟨0, []⟩ :=
  ⟨by decide, (C4_teardown_gate "yes" true true).1,
   (C4_teardown_gate "yes" true true).2 (by decide)⟩

/- ====================================================================
   validate.sh (src/cloudformation/validate.sh)
   ==================================================================== -/

/-- Shell state while validate.sh iterates over templates: the `errors`
counter, the number of failures reported so far, and whether `set -e`
has already killed the script. -/
structure ValidateState where
  errors : Nat
  reported : Nat
  halted : Bool
deriving DecidableEq

/-- One template processed by validate.sh (lines 43-50):
`validate_template FILE || ((errors++))` with `set -e` (line 2) active.
When the template is valid, validate_template returns 0 and the `||`
branch never runs.  When it is invalid, validate_template reports the
failure and returns 1, then `((errors++))` runs: it increments `errors`
but evaluates the post-increment expression to the OLD value, so its
exit status is 1 exactly when `errors` was 0 - and since it is the last
command of the `||` list, `set -e` then aborts the whole script with
status 1. -/
def validateStep (st : ValidateState) (valid : Bool) : ValidateState :=
  if st.halted then st
  else if valid then st
  else if st.errors = 0 then
    ⟨st.errors + 1, st.reported + 1, true⟩
  else
    ⟨st.errors + 1, st.reported + 1, false⟩

/-- Outcome of a validate.sh run: exit status, number of failures
reported, and the error count printed by the final summary (lines
52-59), `none` when the script died before reaching the summary. -/
structure ValidateRun where
  exitCode : Nat
  reportedFailures : Nat
  summaryErrors : Option Nat
deriving DecidableEq

/-- validate.sh lines 41-59.  The templates are processed in order:
every nested-stacks/*.yaml file (`nested`, each Bool telling whether
`aws cloudformation validate-template` accepts it), then
master-stack.yaml (`master`).  After the loop, the summary prints the
error count and exits 0 when it is zero, 1 otherwise - but only when
`set -e` has not already aborted the script. -/
def validateFinish (st : ValidateState) : ValidateRun :=
  if st.halted then ⟨1, st.reported, none⟩
  else if st.errors = 0 then ⟨0, st.reported, some 0⟩
  else ⟨1, st.reported, some st.errors⟩

/-- validate.sh lines 41-59, template loop followed by the summary. -/
def validateRun (nested : List Bool) (master : Bool) : ValidateRun :=
  validateFinish ((nested ++ [master]).foldl validateStep ⟨0, 0, false⟩)

/-- Once `set -e` has killed the script, the state never changes. -/
theorem validate_foldl_frozen (l : List Bool) :
    l.foldl validateStep ⟨1, 1, true⟩ = ⟨1, 1, true⟩ := by
  induction l with
  | nil => rfl
  | cons b rest ih => simpa [validateStep] using ih

/-- When every template is valid, the loop leaves the initial state. -/
theorem validate_foldl_all_valid (l : List Bool)
    (h : l.all (fun b => b) = true) :
    l.foldl validateStep ⟨0, 0, false⟩ = ⟨0, 0, false⟩ := by
  induction l with
  | nil => rfl
  | cons b rest ih =>
    simp only [List.all_cons, Bool.and_eq_true] at h
    obtain ⟨hb, hrest⟩ := h
    cases b
    · simp at hb
    · simpa [validateStep] using ih hrest

/-- When some template is invalid, the loop ends in the killed state
with exactly one failure reported. -/
theorem validate_foldl_some_invalid (l : List Bool)
    (h : l.all (fun b => b) = false) :
    l.foldl validateStep ⟨0, 0, false⟩ = ⟨1, 1, true⟩ := by
  induction l with
  | nil => simp at h
  | cons b rest ih =>
    cases b
    · have hstep : validateStep ⟨0, 0, false⟩ false = ⟨1, 1, true⟩ := by decide
      simp only [List.foldl_cons, hstep]
      exact validate_foldl_frozen rest
    · simp only [List.all_cons] at h
      simp only [Bool.true_and] at h
      have hstep : validateStep ⟨0, 0, false⟩ true = ⟨0, 0, false⟩ := rfl
      simp only [List.foldl_cons, hstep]
      exact ih h

/-- Number of failing templates among the given validation results. -/
def failingCount (nested : List Bool) (master : Bool) : Nat :=
  ((nested ++ [master]).filter (fun b => !b)).length

/-- Claim C5, first half (this part the code satisfies): validate.sh
exits with status 0 if and only if every template passes validation. -/
theorem C5_exit_zero_iff_all_valid (nested : List Bool) (master : Bool) :
    (validateRun nested master).exitCode = 0 ↔
      (nested ++ [master]).all (fun b => b) = true := by
  unfold validateRun
  cases hall : (nested ++ [master]).all (fun b => b)
  · rw [validate_foldl_some_invalid _ hall]
    decide
  · rw [validate_foldl_all_valid _ hall]
    decide

/-- Witness for the C5 exit-status equivalence on an all-valid run with
one nested template. -/
theorem C5_exit_zero_iff_all_valid_witness :
    (validateRun [true] true).exitCode = 0 :=
  (C5_exit_zero_iff_all_valid [true] true).mpr (by decide)

/-- Evaluation of validate.sh at the failing input for claim C5: two
invalid nested templates and a valid master template.  The claim says
the script reports each failure it encountered and prints an error
count of 2 in its summary; the code instead aborts at the first
failure (set -e kills it when `((errors++))` evaluates to 0), having
reported only 1 failure and never reaching the summary. -/
theorem C5_failing_input_eval :
    validateRun [false, false] true = ⟨1, 1, none⟩ ∧
    failingCount [false, false] true = 2 ∧
    (validateRun [false, false] true).reportedFailures ≠ failingCount [false, false] true ∧
    (validateRun [false, false] true).summaryErrors = none := by
  decide

/- ====================================================================
   Constructor effects of every stack class (claim C6)
   ==================================================================== -/

/-- One observable action performed while a stack class's constructor
runs: declaring a managed-service resource in the construct tree,
granting a permission, wiring a CfnOutput, or writing a file to the
local filesystem. -/
inductive ConstructorEffect
  | declareResource (kind : String) (constructId : String)
  | grantPermission (description : String)
  | wireOutput (outputId : String)
  | writeFile (filePath : String)
deriving DecidableEq

/-- A stack class of the repository together with the effects its
constructor performs, in source order. -/
structure StackClassModel where
  className : String
  effects : List ConstructorEffect
deriving DecidableEq

/-- Effects of the DatabaseStack constructor
(src/cdk/lib/database-stack.ts lines 28-281): seven tables with their
GSIs, then seven outputs. -/
def databaseStackModel : StackClassModel :=
  ⟨"DatabaseStack",
   [.declareResource "dynamodb.Table" "TenantsTable",
    .declareResource "Table.addGlobalSecondaryIndex" "slug-index",
    .declareResource "dynamodb.Table" "ApiKeysTable",
    .declareResource "Table.addGlobalSecondaryIndex" "tenantId-index",
    .declareResource "dynamodb.Table" "ServicesTable",
    .declareResource "Table.addGlobalSecondaryIndex" "category-index",
    .declareResource "dynamodb.Table" "ProvidersTable",
    .declareResource "Table.addGlobalSecondaryIndex" "serviceId-index",
    .declareResource "dynamodb.Table" "AvailabilityTable",
    .declareResource "dynamodb.Table" "BookingsTable",
    .declareResource "Table.addGlobalSecondaryIndex" "providerId-start-index",
    .declareResource "Table.addGlobalSecondaryIndex" "clientEmail-index",
    .declareResource "Table.addGlobalSecondaryIndex" "conversationId-index",
    .declareResource "dynamodb.Table" "ConversationsTable",
    .declareResource "Table.addGlobalSecondaryIndex" "state-index",
    .wireOutput "TenantsTableName",
    .wireOutput "ApiKeysTableName",
    .wireOutput "ServicesTableName",
    .wireOutput "ProvidersTableName",
    .wireOutput "AvailabilityTableName",
    .wireOutput "BookingsTableName",
    .wireOutput "ConversationsTableName"]⟩

/-- Effects of the AssetsStack constructor (second class in
src/cdk/lib/database-stack.ts): bucket, distribution, image
optimization Lambda, grant, upload trigger, two outputs. -/
def assetsStackModel : StackClassModel :=
  ⟨"AssetsStack",
   [.declareResource "s3.Bucket" "AssetsBucket",
    .declareResource "cloudfront.Distribution" "AssetsDistribution",
    .declareResource "lambda.Function" "ImageOptimizationFunction",
    .grantPermission "assetsBucket.grantReadWrite(optimizationFunction)",
    .declareResource "Bucket.addEventNotification" "OBJECT_CREATED raw/ to ImageOptimizationFunction",
    .wireOutput "AssetsBucketName",
    .wireOutput "AssetsDistributionDomain"]⟩

/-- Effects of the LambdaStack constructor (the lambda-stack.ts source):
shared layer, five functions with their table grants, nine CloudWatch
alarms from createAlarms, five outputs. -/
def lambdaStackModel : StackClassModel :=
  ⟨"LambdaStack",
   [.declareResource "lambda.LayerVersion" "SharedLayer",
    .declareResource "lambda.Function" "AuthResolverFunction",
    .grantPermission "tenantsTable.grantReadData(authResolverFunction)",
    .grantPermission "apiKeysTable.grantReadWriteData(authResolverFunction)",
    .declareResource "lambda.Function" "CatalogFunction",
    .grantPermission "servicesTable.grantReadWriteData(catalogFunction)",
    .grantPermission "providersTable.grantReadWriteData(catalogFunction)",
    .declareResource "lambda.Function" "AvailabilityFunction",
    .grantPermission "availabilityTable.grantReadWriteData(availabilityFunction)",
    .grantPermission "bookingsTable.grantReadData(availabilityFunction)",
    .grantPermission "servicesTable.grantReadData(availabilityFunction)",
    .grantPermission "providersTable.grantReadData(availabilityFunction)",
    .declareResource "lambda.Function" "BookingFunction",
    .grantPermission "bookingsTable.grantReadWriteData(bookingFunction)",
    .grantPermission "servicesTable.grantReadData(bookingFunction)",
    .grantPermission "providersTable.grantReadData(bookingFunction)",
    .grantPermission "tenantsTable.grantReadData(bookingFunction)",
    .grantPermission "conversationsTable.grantReadData(bookingFunction)",
    .declareResource "lambda.Function" "ChatAgentFunction",
    .grantPermission "conversationsTable.grantReadWriteData(chatAgentFunction)",
    .grantPermission "servicesTable.grantReadData(chatAgentFunction)",
    .grantPermission "providersTable.grantReadData(chatAgentFunction)",
    .grantPermission "availabilityTable.grantReadData(chatAgentFunction)",
    .grantPermission "bookingsTable.grantReadWriteData(chatAgentFunction)",
    .declareResource "cloudwatch.Alarm" "AuthResolverErrorAlarm",
    .declareResource "cloudwatch.Alarm" "AuthResolverThrottleAlarm",
    .declareResource "cloudwatch.Alarm" "AuthResolverDurationAlarm",
    .declareResource "cloudwatch.Alarm" "BookingErrorAlarm",
    .declareResource "cloudwatch.Alarm" "BookingThrottleAlarm",
    .declareResource "cloudwatch.Alarm" "BookingDurationAlarm",
    .declareResource "cloudwatch.Alarm" "ChatAgentErrorAlarm",
    .declareResource "cloudwatch.Alarm" "ChatAgentThrottleAlarm",
    .declareResource "cloudwatch.Alarm" "ChatAgentDurationAlarm",
    .wireOutput "AuthResolverFunctionArn",
    .wireOutput "CatalogFunctionArn",
    .wireOutput "AvailabilityFunctionArn",
    .wireOutput "BookingFunctionArn",
    .wireOutput "ChatAgentFunctionArn"]⟩

/-- Effects of the AppSyncApiStack constructor
(src/cdk/lib/appsync-api-stack.ts lines 30-109): `createSchemaFile`
writes the generated schema to disk with `fs.writeFileSync` (lines
398-402) while the GraphqlApi props are evaluated - the target
`path.join(__dirname, '../schema.graphql')` resolves, with `__dirname`
being the lib/ directory, to cdk/schema.graphql, one level above lib/ -
then the API, the four Lambda data sources, the 23 resolvers of
`createResolvers`, and three outputs are declared. -/
def appSyncApiStackModel : StackClassModel :=
  ⟨"AppSyncApiStack",
   [ConstructorEffect.writeFile "cdk/schema.graphql",
    ConstructorEffect.declareResource "appsync.GraphqlApi" "ChatBookingApi",
    ConstructorEffect.declareResource "GraphqlApi.addLambdaDataSource" "CatalogDataSource",
    ConstructorEffect.declareResource "GraphqlApi.addLambdaDataSource" "AvailabilityDataSource",
    ConstructorEffect.declareResource "GraphqlApi.addLambdaDataSource" "BookingDataSource",
    ConstructorEffect.declareResource "GraphqlApi.addLambdaDataSource" "ChatAgentDataSource"]
   ++ AppSyncApiStack.resolvers.map
        (fun r => ConstructorEffect.declareResource "LambdaDataSource.createResolver" r.resolverId)
   ++ [ConstructorEffect.wireOutput "GraphQLApiUrl",
       ConstructorEffect.wireOutput "GraphQLApiId",
       ConstructorEffect.wireOutput "GraphQLApiKey"]⟩

/-- Effects of the AuthStack constructor (src/cdk/lib/auth-stack.ts
lines 23-152). -/
def authStackModel : StackClassModel :=
  ⟨"AuthStack",
   [.declareResource "cognito.UserPool" "AdminUserPool",
    .declareResource "UserPool.addClient" "AdminWebClient",
    .declareResource "cognito.CfnUserPoolGroup" "AdminGroup",
    .declareResource "cognito.CfnUserPoolGroup" "StaffGroup",
    .declareResource "UserPool.addDomain" "AdminDomain",
    .wireOutput "UserPoolId",
    .wireOutput "UserPoolArn",
    .wireOutput "UserPoolClientId",
    .wireOutput "UserPoolDomain",
    .wireOutput "UserPoolLoginUrl"]⟩

/-- Effects of the FrontendStack constructor
(src/cdk/lib/frontend-stack.ts lines 17-67). -/
def frontendStackModel : StackClassModel :=
  ⟨"FrontendStack",
   [.declareResource "s3.Bucket" "OnboardingBucket",
    .declareResource "cloudfront.Distribution" "OnboardingDistribution",
    .declareResource "s3deploy.BucketDeployment" "DeployOnboarding",
    .wireOutput "CloudFrontURL"]⟩

/-- Effects of the first EmbeddedWidgetStack variant (the chat-widget
variant bundled after AppSyncApiStack in appsync-api-stack.ts, lines
589-646). -/
def embeddedWidgetStackModelA : StackClassModel :=
  ⟨"EmbeddedWidgetStack (chat-widget variant)",
   [.declareResource "s3.Bucket" "WidgetBucket",
    .declareResource "cloudfront.Distribution" "WidgetDistribution",
    .declareResource "s3deploy.BucketDeployment" "DeployWidget",
    .wireOutput "WidgetUrl",
    .wireOutput "DistributionId"]⟩

/-- Effects of the second EmbeddedWidgetStack variant (the
embedded-widget variant, lines 660-727): the ResponseHeadersPolicy is
constructed while the Distribution props are evaluated. -/
def embeddedWidgetStackModelB : StackClassModel :=
  ⟨"EmbeddedWidgetStack (embedded-widget variant)",
   [.declareResource "s3.Bucket" "WidgetBucket",
    .declareResource "cloudfront.ResponseHeadersPolicy" "WidgetCorsPolicy",
    .declareResource "cloudfront.Distribution" "WidgetDistribution",
    .declareResource "s3deploy.BucketDeployment" "DeployWidget",
    .wireOutput "WidgetUrl",
    .wireOutput "WidgetScriptUrl",
    .wireOutput "WidgetCssUrl"]⟩

/-- Every stack class defined in the repository. -/
def allStackClasses : List StackClassModel :=
  [databaseStackModel, assetsStackModel, lambdaStackModel,
   appSyncApiStackModel, authStackModel, frontendStackModel,
   embeddedWidgetStackModelA, embeddedWidgetStackModelB]

/-- An effect mutates only the construct tree when it is a resource
declaration, a permission grant, or an output wiring - anything but a
filesystem write. -/
def constructTreeOnly : ConstructorEffect → Bool
  | .writeFile _ => false
  | _ => true

/-- Counterexample to claim C6 as stated: the claim says instantiating
any stack class mutates only the construct tree, with no filesystem
writes; but the AppSyncApiStack constructor calls `createSchemaFile`,
which writes the generated GraphQL schema to cdk/schema.graphql with
`fs.writeFileSync`. -/
theorem C6_counterexample :
    ConstructorEffect.writeFile "cdk/schema.graphql" ∈ appSyncApiStackModel.effects ∧
    ¬ (∀ s ∈ allStackClasses, ∀ e ∈ s.effects, constructTreeOnly e = true) := by
  decide

/-- Claim C6 (amended): instantiating any stack class of the repository
mutates only the construct tree - declaring resources, granting
permissions, wiring outputs - except that the AppSyncApiStack
constructor additionally performs exactly one filesystem write, of the
generated GraphQL schema to cdk/schema.graphql (the resolution of
`path.join(__dirname, '../schema.graphql')` from lib/); no stack
implements any algorithmic runtime behavior or state machine. -/
theorem C6_construct_tree_amended :
    (∀ s ∈ allStackClasses, s.className ≠ "AppSyncApiStack" →
       ∀ e ∈ s.effects, constructTreeOnly e = true) ∧
    appSyncApiStackModel.effects.filter (fun e => !(constructTreeOnly e)) =
      [ConstructorEffect.writeFile "cdk/schema.graphql"] := by
  decide

/-- Witness for the amended C6 at the DatabaseStack's first effect. -/
theorem C6_construct_tree_amended_witness :
    constructTreeOnly (ConstructorEffect.declareResource "dynamodb.Table" "TenantsTable") = true :=
  C6_construct_tree_amended.1 databaseStackModel (by decide) (by decide)
    (ConstructorEffect.declareResource "dynamodb.Table" "TenantsTable") (by decide)

/- ====================================================================
   S3 buckets and CloudFront distributions (claim C10)
   ==================================================================== -/

/-- Presets of `s3.BlockPublicAccess`. -/
inductive BlockPublicAccessSetting
  | BLOCK_ALL
  | BLOCK_ACLS
  | NONE
deriving DecidableEq

/-- Values of `s3.BucketEncryption`. -/
inductive BucketEncryptionSetting
  | S3_MANAGED
  | KMS
  | KMS_MANAGED
  | UNENCRYPTED
deriving DecidableEq

/-- Values of `cloudfront.ViewerProtocolPolicy`. -/
inductive ViewerProtocol
  | REDIRECT_TO_HTTPS
  | ALLOW_ALL
  | HTTPS_ONLY
deriving DecidableEq

/-- The security-relevant properties of one `new s3.Bucket` declaration.
Field order: stackClass, constructId, blockPublicAccess, encryption.
(Other bucket props - removal policy, CORS, auto-delete - are not part
of the claim and are omitted.) -/
structure BucketDecl where
  stackClass : String
  constructId : String
  blockPublicAccess : BlockPublicAccessSetting
  encryption : BucketEncryptionSetting
deriving DecidableEq

/-- The viewer-protocol property of one `new cloudfront.Distribution`
declaration.  Field order: stackClass, constructId,
viewerProtocolPolicy (of the defaultBehavior). -/
structure DistributionDecl where
  stackClass : String
  constructId : String
  viewerProtocolPolicy : ViewerProtocol
deriving DecidableEq

/-- Every S3 bucket declared in the repository: the onboarding website
bucket (frontend-stack.ts lines 21-26), the widget buckets of both
EmbeddedWidgetStack variants (appsync-api-stack.ts lines 597-610 and
667-679), and the assets bucket (database-stack.ts AssetsStack, lines
306-319). -/
def allBuckets : List BucketDecl :=
  [⟨"FrontendStack", "OnboardingBucket", .BLOCK_ALL, .S3_MANAGED⟩,
   ⟨"EmbeddedWidgetStack (chat-widget variant)", "WidgetBucket", .BLOCK_ALL, .S3_MANAGED⟩,
   ⟨"EmbeddedWidgetStack (embedded-widget variant)", "WidgetBucket", .BLOCK_ALL, .S3_MANAGED⟩,
   ⟨"AssetsStack", "AssetsBucket", .BLOCK_ALL, .S3_MANAGED⟩]

/-- Every CloudFront distribution declared in front of those buckets:
frontend-stack.ts lines 30-52, appsync-api-stack.ts lines 613-623 and
682-698, and the AssetsStack distribution (database-stack.ts lines
322-329). -/
def allDistributions : List DistributionDecl :=
  [⟨"FrontendStack", "OnboardingDistribution", .REDIRECT_TO_HTTPS⟩,
   ⟨"EmbeddedWidgetStack (chat-widget variant)", "WidgetDistribution", .REDIRECT_TO_HTTPS⟩,
   ⟨"EmbeddedWidgetStack (embedded-widget variant)", "WidgetDistribution", .REDIRECT_TO_HTTPS⟩,
   ⟨"AssetsStack", "AssetsDistribution", .REDIRECT_TO_HTTPS⟩]

/-- Claim C10: every S3 bucket declared in the repository blocks all
public access and uses S3-managed encryption, and every CloudFront
distribution fronting those buckets redirects viewers to HTTPS. -/
theorem C10_bucket_and_distribution_security :
    allBuckets.length = 4 ∧ allDistributions.length = 4 ∧
    (∀ b ∈ allBuckets,
       b.blockPublicAccess = BlockPublicAccessSetting.BLOCK_ALL ∧
       b.encryption = BucketEncryptionSetting.S3_MANAGED) ∧
    (∀ d ∈ allDistributions,
       d.viewerProtocolPolicy = ViewerProtocol.REDIRECT_TO_HTTPS) := by
  decide

/-- Witness for C10 at the onboarding bucket and distribution. -/
theorem C10_bucket_and_distribution_security_witness :
    (⟨"FrontendStack", "OnboardingBucket", .BLOCK_ALL, .S3_MANAGED⟩ : BucketDecl) ∈ allBuckets ∧
    BucketDecl.blockPublicAccess ⟨"FrontendStack", "OnboardingBucket", .BLOCK_ALL, .S3_MANAGED⟩ =
      BlockPublicAccessSetting.BLOCK_ALL :=
  ⟨by decide,
   (C10_bucket_and_distribution_security.2.2.1
      ⟨"FrontendStack", "OnboardingBucket", .BLOCK_ALL, .S3_MANAGED⟩ (by decide)).1⟩

/- ====================================================================
   CloudFormation nested-stack expression (claim C7)
   ==================================================================== -/

/-- Key/index summary of one table as either template language declares
it: table name, partition key name, sort key name, GSI names. -/
structure TableKeySummary where
  tableName : String
  partitionKeyName : String
  sortKeyName : Option String
  indexNames : List String
deriving DecidableEq

/-- The table summaries of the CDK expression, projected from the
DatabaseStack declarations. -/
def cdkTableSummaries : List TableKeySummary :=
  DatabaseStack.tables.map
    (fun t => ⟨t.tableName, t.partitionKey.name,
               t.sortKey.map KeyAttribute.name,
               t.globalSecondaryIndexes.map GlobalSecondaryIndex.indexName⟩)

/-- The Lambda function declarations of the CDK LambdaStack: construct
id, functionName, backend code directory, and whether the function
lists the shared layer in `layers:`.  Field order: constructId,
functionName, codeDir, usesSharedLayer. -/
structure FunctionDecl where
  constructId : String
  functionName : String
  codeDir : String
  usesSharedLayer : Bool
deriving DecidableEq

/-- The five functions declared in lambda-stack.ts, in source order;
each takes its code from `chat-booking-backend/<codeDir>` and lists
`layers: [sharedLayer]`. -/
def lambdaStackFunctions : List FunctionDecl :=
  [⟨"AuthResolverFunction", "ChatBooking-AuthResolver", "auth_resolver", true⟩,
   ⟨"CatalogFunction", "ChatBooking-Catalog", "catalog", true⟩,
   ⟨"AvailabilityFunction", "ChatBooking-Availability", "availability", true⟩,
   ⟨"BookingFunction", "ChatBooking-Booking", "booking", true⟩,
   ⟨"ChatAgentFunction", "ChatBooking-ChatAgent", "chat_agent", true⟩]

/-- The backend code directories that the CloudFormation deploy script
packages and uploads for its Lambda functions
(src/cloudformation/deploy.sh, the `for dir in ...` loop of
`package_lambdas`), in script order. -/
def deployScriptFunctionDirs : List String :=
  ["auth_resolver", "catalog", "availability", "booking", "chat_agent"]

/-- Whether the deploy script also packages the shared layer
(`package_lambdas`, the shared-layer block producing
shared-layer.zip). -/
def deployScriptPackagesSharedLayer : Bool := true

/-- Modelled from the spec: the CloudFormation YAML templates
(master-stack.yaml and nested-stacks/database-stack.yaml) are not under
src/; per the spec they are redundant re-expressions of the same
declarative resource graph in a different syntax, and the
CloudFormation README describes database-stack.yaml as declaring the
same 7 DynamoDB tables with GSIs, PITR and encryption.  These are the
table key summaries that the nested-stack expression therefore
declares. -/
def cfnTableSummaries : List TableKeySummary :=
  [⟨"ChatBooking-Tenants", "tenantId", none, ["slug-index"]⟩,
   ⟨"ChatBooking-ApiKeys", "apiKeyHash", none, ["tenantId-index"]⟩,
   ⟨"ChatBooking-Services", "tenantId", some "serviceId", ["category-index"]⟩,
   ⟨"ChatBooking-Providers", "tenantId", some "providerId", ["serviceId-index"]⟩,
   ⟨"ChatBooking-ProviderAvailability", "tenantId_providerId", some "dayOfWeek", []⟩,
   ⟨"ChatBooking-Bookings", "tenantId", some "bookingId",
      ["providerId-start-index", "clientEmail-index", "conversationId-index"]⟩,
   ⟨"ChatBooking-Conversations", "tenantId", some "conversationId", ["state-index"]⟩]

/-- Modelled from the spec: nested-stacks/lambda-stack.yaml is not under
src/; the CloudFormation README describes it as declaring a shared
layer plus the Auth Resolver, Catalog, Availability, Booking and Chat
Agent functions, whose code the deploy script packages from these
backend directories. -/
def cfnFunctionDirs : List String :=
  ["auth_resolver", "catalog", "availability", "booking", "chat_agent"]

/-- Modelled from the spec: nested-stacks/lambda-stack.yaml declares the
shared layer that all five functions use. -/
def cfnHasSharedLayer : Bool := true

/-- Modelled from the spec: nested-stacks/appsync-api-stack.yaml
declares one GraphQL API with schema, data sources and resolvers. -/
def cfnGraphqlApiCount : Nat := 1

/-- Modelled from the spec: nested-stacks/auth-stack.yaml is not under
src/; per the spec it re-expresses the same Cognito resource graph -
the user pool, its web client, the admin and staff groups, and the
hosted-UI domain that the CDK AuthStack declares. -/
def cfnCognitoConstructs : List String :=
  ["AdminUserPool", "AdminWebClient", "AdminGroup", "StaffGroup", "AdminDomain"]

/-- Number of GraphQL APIs declared by the CDK AppSyncApiStack. -/
def cdkGraphqlApiCount : Nat :=
  (appSyncApiStackModel.effects.filter
    (fun e => e == ConstructorEffect.declareResource "appsync.GraphqlApi" "ChatBookingApi")).length

/-- The Cognito constructs declared by the CDK AuthStack, projected from
its constructor effects. -/
def cdkCognitoConstructs : List String :=
  authStackModel.effects.filterMap (fun e =>
    match e with
    | ConstructorEffect.declareResource _ id => some id
    | _ => none)

/-- Claim C7: the CloudFormation nested-stack expression declares the
same resource graph as the CDK stacks - the same DynamoDB tables with
the same names and keys, the same five Lambda functions with shared
layer, the same (single) AppSync GraphQL API, and the same Cognito auth
resources - differing from the CDK expression only in syntax. -/
theorem C7_cfn_matches_cdk :
    cfnTableSummaries = cdkTableSummaries ∧
    cfnFunctionDirs = lambdaStackFunctions.map FunctionDecl.codeDir ∧
    cfnFunctionDirs = deployScriptFunctionDirs ∧
    lambdaStackFunctions.all FunctionDecl.usesSharedLayer = true ∧
    cfnHasSharedLayer = deployScriptPackagesSharedLayer ∧
    cfnGraphqlApiCount = cdkGraphqlApiCount ∧
    cfnCognitoConstructs = cdkCognitoConstructs := by
  decide
